import Mathlib

/-!
Shallow embedding of `src/crypto/chap.c` (CHAP challenge/response core).

Memory model: the single allocation performed by `chap_init` is represented
as a `List Nat` of bytes.  The C struct `chap_challenge` (declared in
`gpxe/chap.h`, which is not part of `src/`) holds four fields:

  struct crypto_algorithm *digest;   -- the bound digest algorithm
  void *digest_context;              -- pointer to the allocation (its start)
  void *response;                    -- pointer into the same allocation
  size_t response_len;

Here `alloc` models `digest_context` together with the bytes of the backing
allocation (the context pointer is always the allocation's start), and
`response` models the response pointer as an offset into that allocation.
An allocator is passed explicitly as `malloc : Nat -> Option (List Nat)`,
and `chap_init` additionally returns the list of allocation sizes it
requested, so that "performs exactly one allocation of size n" is a
provable statement about the code.
-/

namespace Chap

/-- Modelled from the spec: the abstract digest-algorithm capability
(`struct crypto_algorithm` of `gpxe/crypto.h`, not present under `src/`).
Per spec section 6 a digest exposes a fixed working-state size `ctxsize`, a
fixed output size `digestsize`, an operation setting the state to its defined
initial value (modelled as the constant context `init`), `update` mixing
bytes into the state, and `final` which transforms the working state per the
padding/termination rule and writes exactly `digestsize` output bytes
(modelled as `final : ctx -> (new ctx, output)`).  The `update_nil` and
`update_append` laws are spec section 8.1's digest streaming property
("update is associative/splittable"), asserted there for all digest
algorithms; the length laws are section 6's size contracts. -/
structure crypto_algorithm where
  name : String
  ctxsize : Nat
  digestsize : Nat
  init : List Nat
  update : List Nat → List Nat → List Nat
  final : List Nat → List Nat × List Nat
  init_len : init.length = ctxsize
  update_len : ∀ c d, (update c d).length = c.length
  update_nil : ∀ c, update c [] = c
  update_append : ∀ c a b, update c (a ++ b) = update (update c a) b
  final_ctx_len : ∀ c, (final c).1.length = c.length
  final_out_len : ∀ c, (final c).2.length = digestsize

/-- The CHAP challenge/response state, mirroring `struct chap_challenge`:
`digest` is the bound algorithm (NULL modelled as `none`); `alloc` is the
`digest_context` pointer together with the contents of the single backing
allocation it points at; `response` is the response pointer, as a byte
offset into that allocation; `response_len` is the response length. -/
structure chap_challenge where
  digest : Option crypto_algorithm
  alloc : Option (List Nat)
  response : Option Nat
  response_len : Nat

/-- The all-zero / all-NULL value of the struct: a freshly declared
(uninitialized) instance, and also the result of `memset ( chap, 0, ... )`. -/
def chap_challenge.empty : chap_challenge :=
  { digest := none, alloc := none, response := none, response_len := 0 }

/-- Writing `src` into `region` at byte offset `off` (a `memcpy`-style
in-place store, exact when `off + src.length ≤ region.length`). -/
def writeBytes (region : List Nat) (off : Nat) (src : List Nat) : List Nat :=
  region.take off ++ src ++ region.drop (off + src.length)

/-- The working-state region: the first `ctxsize` bytes of the allocation
(what `digest_context` points at, viewed with the bound digest's size). -/
def chap_challenge.working_state (c : chap_challenge) : Option (List Nat) :=
  match c.digest, c.alloc with
  | some d, some a => some (a.take d.ctxsize)
  | _, _ => none

/-- The response region's contents: `response_len` bytes of the allocation
starting at the `response` pointer's offset. -/
def chap_challenge.response_bytes (c : chap_challenge) : Option (List Nat) :=
  match c.alloc, c.response with
  | some a, some r => some ((a.drop r).take c.response_len)
  | _, _ => none

/-- Modelled from the spec: the identifiable out-of-memory error code
(`ENOMEM` of `errno.h`, not present under `src/`); the exact numeric value
is platform-defined, only `-ENOMEM ≠ 0` and its identity matter. -/
def ENOMEM : Int := 12

/-- `chap_init`: computes `state_len = ctxsize + digestsize`, performs one
allocation of that size via `malloc`; on failure returns `-ENOMEM` leaving
`chap` untouched; on success binds the digest, points `digest_context` at
the allocation and `response` at offset `ctxsize`, sets
`response_len = digestsize`, and runs `digest_init` on the working state
(writing the digest's initial context into the first `ctxsize` bytes).
The third component of the result is the list of allocation sizes
requested during the call. -/
def chap_init (malloc : Nat → Option (List Nat)) (chap : chap_challenge)
    (digest : crypto_algorithm) : Int × chap_challenge × List Nat :=
  let state_len := digest.ctxsize + digest.digestsize
  match malloc state_len with
  | none => (-ENOMEM, chap, [state_len])
  | some state =>
      let chap1 : chap_challenge :=
        { digest := some digest
        , alloc := some (writeBytes state 0 digest.init)
        , response := some digest.ctxsize
        , response_len := digest.digestsize }
      (0, chap1, [state_len])

/-- `chap_update`: production behavior is `if ( ! chap->digest ) return;`
then `digest_update` on the working state (the asserts are debug-only).
The inner `none` branch (digest bound but no allocation) is unreachable
through the API; there the C code would dereference a null context. -/
def chap_update (chap : chap_challenge) (data : List Nat) : chap_challenge :=
  match chap.digest with
  | none => chap
  | some d =>
      match chap.alloc with
      | none => chap
      | some a =>
          { chap with
            alloc := some (writeBytes a 0 (d.update (a.take d.ctxsize) data)) }

/-- `chap_respond`: production behavior is `if ( ! chap->digest ) return;`
then `digest_final` on the working state, writing the output at the
`response` pointer.  Branches with a bound digest but no allocation or no
response pointer are unreachable through the API (the C code would
dereference null there). -/
def chap_respond (chap : chap_challenge) : chap_challenge :=
  match chap.digest with
  | none => chap
  | some d =>
      match chap.alloc, chap.response with
      | some a, some r =>
          let fr := d.final (a.take d.ctxsize)
          { chap with alloc := some (writeBytes (writeBytes a 0 fr.1) r fr.2) }
      | _, _ => chap

/-- `chap_finish`: `free ( state )` (dropping the allocation) followed by
`memset ( chap, 0, sizeof ( *chap ) )`, i.e. every field reset to zero. -/
def chap_finish (_chap : chap_challenge) : chap_challenge :=
  chap_challenge.empty

/-- An instance in the state produced by a successful `chap_init`: a digest
is bound, the allocation has exactly `ctxsize + digestsize` bytes, the
response pointer sits at offset `ctxsize`, and `response_len = digestsize`. -/
def chap_challenge.Ready (c : chap_challenge) : Prop :=
  ∃ d a, c.digest = some d ∧ c.alloc = some a ∧
    a.length = d.ctxsize + d.digestsize ∧
    c.response = some d.ctxsize ∧ c.response_len = d.digestsize

/-- A lifecycle operation after `Init`: either an `Update` with some data or
a `Respond`. -/
inductive chap_op where
  | upd (data : List Nat)
  | respond

/-- One lifecycle operation applied to an instance. -/
def chap_step (c : chap_challenge) (op : chap_op) : chap_challenge :=
  match op with
  | .upd data => chap_update c data
  | .respond => chap_respond c

/-- A sequence of lifecycle operations applied in order. -/
def chap_run (c : chap_challenge) (ops : List chap_op) : chap_challenge :=
  ops.foldl chap_step c

/-- A sequence of `chap_update` calls, one per byte string. -/
def chap_updates (c : chap_challenge) (ss : List (List Nat)) : chap_challenge :=
  ss.foldl chap_update c

/-- A concrete digest algorithm used to instantiate theorems: two-byte
working state, one-byte output; `update` adds the data's byte sum into every
state byte, `final` emits the state's byte sum. -/
def sumDigest : crypto_algorithm where
  name := "sum"
  ctxsize := 2
  digestsize := 1
  init := [0, 0]
  update := fun c d => c.map (fun x => x + d.sum)
  final := fun c => (c, [c.sum])
  init_len := rfl
  update_len := by intro c d; simp
  update_nil := by intro c; simp
  update_append := by
    intro c a b
    simp [List.map_map, Function.comp, Nat.add_assoc, List.sum_append]
  final_ctx_len := by intro c; rfl
  final_out_len := by intro c; rfl

/-- An allocator that always succeeds, returning `n` bytes of value 7. -/
def mallocSeven : Nat → Option (List Nat) := fun n => some (List.replicate n 7)

/-- An allocator that always succeeds, returning `n` bytes of value 9. -/
def mallocNine : Nat → Option (List Nat) := fun n => some (List.replicate n 9)

/-- An allocator that always fails. -/
def mallocFail : Nat → Option (List Nat) := fun _ => none

/-- A concrete instance in the state a successful `chap_init` with
`sumDigest` produces (allocation `[0, 0, 7]`: initial context `[0, 0]`
followed by one uninitialized response byte). -/
def readyC : chap_challenge :=
  { digest := some sumDigest, alloc := some [0, 0, 7]
  , response := some 2, response_len := 1 }

/- ## Core lemmas -/

lemma writeBytes_zero (a src : List Nat) :
    writeBytes a 0 src = src ++ a.drop src.length := by
  simp [writeBytes]

lemma writeBytes_at (x t y : List Nat) (off : Nat) (hoff : off = x.length) :
    writeBytes (x ++ t) off y = x ++ (y ++ t.drop y.length) := by
  subst hoff
  simp [writeBytes, List.take_left, List.drop_append]

lemma take_append_len (x t : List Nat) (n : Nat) (h : x.length = n) :
    (x ++ t).take n = x := by
  subst h
  simp

lemma drop_append_len (x t : List Nat) (n : Nat) (h : x.length = n) :
    (x ++ t).drop n = t := by
  subst h
  simp

/-- `chap_update` on a state with a bound digest and a large-enough
allocation: the working-state bytes are replaced by the digest update of the
old working state, the rest of the allocation is untouched. -/
lemma chap_update_eq (c : chap_challenge) (d : crypto_algorithm)
    (a data : List Nat) (hd : c.digest = some d) (ha : c.alloc = some a)
    (hl : d.ctxsize ≤ a.length) :
    chap_update c data =
      { c with alloc := some (d.update (a.take d.ctxsize) data ++ a.drop d.ctxsize) } := by
  have htl : (a.take d.ctxsize).length = d.ctxsize := by simp [hl]
  have hul : (d.update (a.take d.ctxsize) data).length = d.ctxsize := by
    rw [d.update_len, htl]
  simp only [chap_update, hd, ha, writeBytes_zero, hul]

/-- `chap_respond` on a state with a bound digest, a large-enough allocation
and the response pointer at offset `ctxsize`: the working-state bytes become
the finalized context and the response region receives the digest output. -/
lemma chap_respond_eq (c : chap_challenge) (d : crypto_algorithm)
    (a : List Nat) (hd : c.digest = some d) (ha : c.alloc = some a)
    (hl : a.length = d.ctxsize + d.digestsize)
    (hr : c.response = some d.ctxsize) :
    chap_respond c =
      { c with alloc := some ((d.final (a.take d.ctxsize)).1 ++
                              (d.final (a.take d.ctxsize)).2) } := by
  have hle : d.ctxsize ≤ a.length := by omega
  have htl : (a.take d.ctxsize).length = d.ctxsize := by simp [hle]
  have hfl : (d.final (a.take d.ctxsize)).1.length = d.ctxsize := by
    rw [d.final_ctx_len, htl]
  have hol : (d.final (a.take d.ctxsize)).2.length = d.digestsize := d.final_out_len _
  have hb : writeBytes a 0 (d.final (a.take d.ctxsize)).1 =
      (d.final (a.take d.ctxsize)).1 ++ a.drop d.ctxsize := by
    rw [writeBytes_zero, hfl]
  have hdl : ((a.drop d.ctxsize).drop (d.final (a.take d.ctxsize)).2.length) = [] := by
    apply List.drop_eq_nil_of_le
    simp [hol]
    omega
  simp only [chap_respond, hd, ha, hr, hb,
    writeBytes_at _ _ _ _ hfl.symm, hdl, List.append_nil]

/-- Structure eta: rebuilding an instance with its own allocation changes
nothing. -/
lemma chap_with_self_alloc (c : chap_challenge) (a : List Nat)
    (ha : c.alloc = some a) : { c with alloc := some a } = c := by
  cases c
  simp_all

/-- An update leaves the allocation's total length unchanged. -/
lemma update_alloc_len (d : crypto_algorithm) (a data : List Nat)
    (hl : d.ctxsize ≤ a.length) :
    (d.update (a.take d.ctxsize) data ++ a.drop d.ctxsize).length = a.length := by
  simp [d.update_len]
  omega

/-- The digest streaming property lifted to `chap_update`: a sequence of
updates from a post-`chap_init` state equals one update with the
concatenation of all the data. -/
lemma chap_updates_eq (d : crypto_algorithm) (ss : List (List Nat)) :
    ∀ (c : chap_challenge) (a : List Nat), c.digest = some d → c.alloc = some a →
      a.length = d.ctxsize + d.digestsize →
      chap_updates c ss = chap_update c ss.flatten := by
  induction ss with
  | nil =>
      intro c a hd ha hl
      have hle : d.ctxsize ≤ a.length := by omega
      show c = chap_update c []
      rw [chap_update_eq c d a [] hd ha hle, d.update_nil, List.take_append_drop]
      exact (chap_with_self_alloc c a ha).symm
  | cons s ss ih =>
      intro c a hd ha hl
      have hle : d.ctxsize ≤ a.length := by omega
      have hstep := chap_update_eq c d a s hd ha hle
      have hu1len : (d.update (a.take d.ctxsize) s).length = d.ctxsize := by
        rw [d.update_len]
        simp [hle]
      have hd1 : (chap_update c s).digest = some d := by rw [hstep]; exact hd
      have ha1 : (chap_update c s).alloc =
          some (d.update (a.take d.ctxsize) s ++ a.drop d.ctxsize) := by rw [hstep]
      have hl1 : (d.update (a.take d.ctxsize) s ++ a.drop d.ctxsize).length =
          d.ctxsize + d.digestsize := by rw [update_alloc_len d a s hle]; exact hl
      have IH := ih (chap_update c s) _ hd1 ha1 hl1
      show chap_updates (chap_update c s) ss = chap_update c ((s :: ss).flatten)
      rw [IH]
      have hle1 : d.ctxsize ≤
          (d.update (a.take d.ctxsize) s ++ a.drop d.ctxsize).length := by
        rw [hl1]; omega
      rw [chap_update_eq (chap_update c s) d _ ss.flatten hd1 ha1 hle1]
      rw [chap_update_eq c d a ((s :: ss).flatten) hd ha hle]
      have htk : ((d.update (a.take d.ctxsize) s ++ a.drop d.ctxsize)).take d.ctxsize =
          d.update (a.take d.ctxsize) s := take_append_len _ _ _ hu1len
      have hdr : ((d.update (a.take d.ctxsize) s ++ a.drop d.ctxsize)).drop d.ctxsize =
          a.drop d.ctxsize := drop_append_len _ _ _ hu1len
      rw [hstep, htk, hdr]
      have hflat : (s :: ss).flatten = s ++ ss.flatten := by simp
      rw [hflat, d.update_append]

/-- `chap_update` never changes the `response_len` field. -/
lemma chap_update_response_len (c : chap_challenge) (data : List Nat) :
    (chap_update c data).response_len = c.response_len := by
  rcases c with ⟨dg, al, r, rl⟩
  cases dg <;> cases al <;> rfl

/-- `chap_respond` never changes the `response_len` field. -/
lemma chap_respond_response_len (c : chap_challenge) :
    (chap_respond c).response_len = c.response_len := by
  rcases c with ⟨dg, al, r, rl⟩
  cases dg <;> cases al <;> cases r <;> rfl

/-- One lifecycle step never changes the `response_len` field. -/
lemma chap_step_response_len (c : chap_challenge) (op : chap_op) :
    (chap_step c op).response_len = c.response_len := by
  cases op with
  | upd data => exact chap_update_response_len c data
  | respond => exact chap_respond_response_len c

/-- A whole run of lifecycle steps never changes the `response_len` field. -/
lemma chap_run_response_len (ops : List chap_op) :
    ∀ c : chap_challenge, (chap_run c ops).response_len = c.response_len := by
  induction ops with
  | nil => intro c; rfl
  | cons op ops ih =>
      intro c
      show (chap_run (chap_step c op) ops).response_len = c.response_len
      rw [ih (chap_step c op), chap_step_response_len]

/-- Unfolding a successful `chap_init`. -/
lemma chap_init_some (malloc : Nat → Option (List Nat)) (chap : chap_challenge)
    (D : crypto_algorithm) (raw : List Nat)
    (hm : malloc (D.ctxsize + D.digestsize) = some raw) :
    chap_init malloc chap D =
      (0,
       { digest := some D, alloc := some (D.init ++ raw.drop D.ctxsize)
       , response := some D.ctxsize, response_len := D.digestsize },
       [D.ctxsize + D.digestsize]) := by
  simp only [chap_init, hm, writeBytes_zero, D.init_len]

/- ## Claim theorems -/

/-- C1: for every digest algorithm `D`, a successful `chap_init` on an
uninitialized instance performs exactly one allocation, of size
`ctxsize + digestsize`; it binds the digest reference, makes the first
`ctxsize` bytes of the allocation the working state and the remaining
`digestsize` bytes the response region, sets `response_len = digestsize`,
runs the digest's initialization on the working state (whose bytes become
the digest's initial context), and returns success (0). -/
theorem chap_init_success (malloc : Nat → Option (List Nat))
    (chap : chap_challenge) (D : crypto_algorithm) (raw : List Nat)
    ( _hu : chap.digest = none)
    (hm : malloc (D.ctxsize + D.digestsize) = some raw)
    (hlen : raw.length = D.ctxsize + D.digestsize) :
    chap_init malloc chap D =
      (0,
       { digest := some D, alloc := some (D.init ++ raw.drop D.ctxsize)
       , response := some D.ctxsize, response_len := D.digestsize },
       [D.ctxsize + D.digestsize]) ∧
    (chap_init malloc chap D).2.1.working_state = some D.init ∧
    (chap_init malloc chap D).2.1.response_bytes = some (raw.drop D.ctxsize) ∧
    (raw.drop D.ctxsize).length = D.digestsize := by
  have h0 := chap_init_some malloc chap D raw hm
  have hdlen : (raw.drop D.ctxsize).length = D.digestsize := by
    simp [hlen]
  refine ⟨h0, ?_, ?_, hdlen⟩
  · rw [h0]
    simp only [chap_challenge.working_state]
    rw [take_append_len _ _ _ D.init_len]
  · rw [h0]
    simp only [chap_challenge.response_bytes]
    rw [drop_append_len _ _ _ D.init_len,
      List.take_of_length_le (le_of_eq hdlen)]

/-- Witness for C1: `sumDigest` with an always-succeeding allocator. -/
theorem chap_init_success_witness :
    chap_challenge.empty.digest = none ∧
    mallocSeven (sumDigest.ctxsize + sumDigest.digestsize) =
      some (List.replicate 3 7) ∧
    (List.replicate 3 7).length = sumDigest.ctxsize + sumDigest.digestsize ∧
    (chap_init mallocSeven chap_challenge.empty sumDigest).2.1.working_state =
      some [0, 0] :=
  ⟨rfl, rfl, rfl,
   (chap_init_success mallocSeven chap_challenge.empty sumDigest
      (List.replicate 3 7) rfl rfl rfl).2.1⟩

/-- C4: if the allocation inside `chap_init` fails, the call returns the
identifiable out-of-memory error `-ENOMEM` (after requesting the single
allocation) and the instance component of the result is exactly the
untouched pre-call instance: still no digest bound, no working state, no
response pointer. -/
theorem chap_init_alloc_failure (malloc : Nat → Option (List Nat))
    (chap : chap_challenge) (D : crypto_algorithm)
    (hud : chap.digest = none) ( _hua : chap.alloc = none)
    (hur : chap.response = none)
    (hm : malloc (D.ctxsize + D.digestsize) = none) :
    chap_init malloc chap D = (-ENOMEM, chap, [D.ctxsize + D.digestsize]) ∧
    (chap_init malloc chap D).2.1.digest = none ∧
    (chap_init malloc chap D).2.1.working_state = none ∧
    (chap_init malloc chap D).2.1.response = none ∧
    ENOMEM ≠ 0 := by
  have h0 : chap_init malloc chap D = (-ENOMEM, chap, [D.ctxsize + D.digestsize]) := by
    simp only [chap_init, hm]
  refine ⟨h0, ?_, ?_, ?_, by decide⟩
  · rw [h0]; exact hud
  · rw [h0]; simp [chap_challenge.working_state, hud]
  · rw [h0]; exact hur

/-- Witness for C4: the always-failing allocator on an empty instance. -/
theorem chap_init_alloc_failure_witness :
    mallocFail (sumDigest.ctxsize + sumDigest.digestsize) = none ∧
    chap_init mallocFail chap_challenge.empty sumDigest =
      (-ENOMEM, chap_challenge.empty, [sumDigest.ctxsize + sumDigest.digestsize]) :=
  ⟨rfl,
   (chap_init_alloc_failure mallocFail chap_challenge.empty sumDigest
      rfl rfl rfl rfl).1⟩

/-- C5: `chap_finish` resets every instance — initialized, uninitialized or
already finished — to the fresh uninitialized value (all fields zero); it is
idempotent, and `chap_init` immediately followed by `chap_finish` also
leaves the instance field-by-field equal to a freshly declared one. -/
theorem chap_finish_resets (c : chap_challenge) (malloc : Nat → Option (List Nat))
    (chap : chap_challenge) (D : crypto_algorithm) :
    chap_finish c = chap_challenge.empty ∧
    (chap_finish c).digest = none ∧
    (chap_finish c).alloc = none ∧
    (chap_finish c).response = none ∧
    (chap_finish c).response_len = 0 ∧
    chap_finish (chap_finish c) = chap_finish c ∧
    chap_finish chap_challenge.empty = chap_challenge.empty ∧
    chap_finish ((chap_init malloc chap D).2.1) = chap_challenge.empty :=
  ⟨rfl, rfl, rfl, rfl, rfl, rfl, rfl, rfl⟩

/-- C6: on an uninitialized instance (no digest bound), `chap_update` and
`chap_respond` return without faulting and leave the instance completely
unchanged. -/
theorem chap_noop_when_uninit (c : chap_challenge) (data : List Nat)
    (h : c.digest = none) :
    chap_update c data = c ∧ chap_respond c = c := by
  constructor <;> simp [chap_update, chap_respond, h]

/-- Witness for C6: the fresh empty instance with some data. -/
theorem chap_noop_when_uninit_witness :
    chap_challenge.empty.digest = none ∧
    chap_update chap_challenge.empty [1, 2] = chap_challenge.empty ∧
    chap_respond chap_challenge.empty = chap_challenge.empty :=
  ⟨rfl, (chap_noop_when_uninit chap_challenge.empty [1, 2] rfl).1,
   (chap_noop_when_uninit chap_challenge.empty [1, 2] rfl).2⟩

/-- Shared helper: on an initialized instance, the response region after
`chap_respond` holds the digest output of the current working state. -/
lemma chap_respond_bytes_eq (c : chap_challenge) (d : crypto_algorithm)
    (a : List Nat) (hd : c.digest = some d) (ha : c.alloc = some a)
    (hl : a.length = d.ctxsize + d.digestsize)
    (hr : c.response = some d.ctxsize) (hrl : c.response_len = d.digestsize) :
    (chap_respond c).response_bytes = some ((d.final (a.take d.ctxsize)).2) := by
  have h0 := chap_respond_eq c d a hd ha hl hr
  have hfl : (d.final (a.take d.ctxsize)).1.length = d.ctxsize := by
    rw [d.final_ctx_len, List.length_take, hl]
    omega
  have hol := d.final_out_len (a.take d.ctxsize)
  rw [h0]
  simp only [chap_challenge.response_bytes, hr, hrl]
  rw [drop_append_len _ _ _ hfl, List.take_of_length_le (le_of_eq hol)]

/-- C2: on an initialized instance, `chap_respond` runs the digest's
finalization on the working state and writes its output — exactly
`response_len` bytes — into the response region, after which the response
region holds the CHAP response value.  The operation is a total function
(no return value, cannot fail). -/
theorem chap_respond_writes (c : chap_challenge) (d : crypto_algorithm)
    (a : List Nat) (hd : c.digest = some d) (ha : c.alloc = some a)
    (hl : a.length = d.ctxsize + d.digestsize)
    (hr : c.response = some d.ctxsize) (hrl : c.response_len = d.digestsize) :
    (chap_respond c).response_bytes = some ((d.final (a.take d.ctxsize)).2) ∧
    ((d.final (a.take d.ctxsize)).2).length = c.response_len :=
  ⟨chap_respond_bytes_eq c d a hd ha hl hr hrl,
   by rw [d.final_out_len, hrl]⟩

/-- Witness for C2: the concrete initialized instance `readyC`. -/
theorem chap_respond_writes_witness :
    readyC.digest = some sumDigest ∧
    readyC.alloc = some [0, 0, 7] ∧
    (chap_respond readyC).response_bytes = some [0] :=
  ⟨rfl, rfl,
   (chap_respond_writes readyC sumDigest [0, 0, 7] rfl rfl rfl rfl rfl).1⟩

/-- C3: starting from a successful `chap_init`, feeding the data in any
split — a sequence of `chap_update` calls versus one `chap_update` with the
concatenation — leads to identical states, hence identical responses after
`chap_respond`. -/
theorem chap_update_streaming (malloc : Nat → Option (List Nat))
    (chap : chap_challenge) (D : crypto_algorithm) (raw : List Nat)
    (ss : List (List Nat))
    (hm : malloc (D.ctxsize + D.digestsize) = some raw)
    (hlen : raw.length = D.ctxsize + D.digestsize) :
    chap_respond (chap_updates ((chap_init malloc chap D).2.1) ss) =
      chap_respond (chap_update ((chap_init malloc chap D).2.1) ss.flatten) ∧
    (chap_respond (chap_updates ((chap_init malloc chap D).2.1) ss)).response_bytes =
      (chap_respond (chap_update ((chap_init malloc chap D).2.1) ss.flatten)).response_bytes := by
  have h0 := chap_init_some malloc chap D raw hm
  have hd1 : (chap_init malloc chap D).2.1.digest = some D := by rw [h0]
  have ha1 : (chap_init malloc chap D).2.1.alloc =
      some (D.init ++ raw.drop D.ctxsize) := by rw [h0]
  have hl1 : (D.init ++ raw.drop D.ctxsize).length = D.ctxsize + D.digestsize := by
    rw [List.length_append, D.init_len, List.length_drop, hlen]
    omega
  have heq := chap_updates_eq D ss _ _ hd1 ha1 hl1
  exact ⟨by rw [heq], by rw [heq]⟩

/-- Witness for C3: `sumDigest`, data split `[[1], [2, 3]]`. -/
theorem chap_update_streaming_witness :
    mallocSeven (sumDigest.ctxsize + sumDigest.digestsize) =
      some (List.replicate 3 7) ∧
    (List.replicate 3 7).length = sumDigest.ctxsize + sumDigest.digestsize ∧
    chap_respond (chap_updates
        ((chap_init mallocSeven chap_challenge.empty sumDigest).2.1) [[1], [2, 3]]) =
      chap_respond (chap_update
        ((chap_init mallocSeven chap_challenge.empty sumDigest).2.1)
        (List.flatten [[1], [2, 3]])) :=
  ⟨rfl, rfl,
   (chap_update_streaming mallocSeven chap_challenge.empty sumDigest
      (List.replicate 3 7) [[1], [2, 3]] rfl rfl).1⟩

/-- C7: after a successful `chap_init` with digest `D`, the `response_len`
field equals `D.digestsize`, every subsequent sequence of `chap_update` and
`chap_respond` calls preserves that equality, and `chap_finish` resets it
to zero. -/
theorem chap_response_len_invariant (malloc : Nat → Option (List Nat))
    (chap : chap_challenge) (D : crypto_algorithm) (raw : List Nat)
    (ops : List chap_op)
    (hm : malloc (D.ctxsize + D.digestsize) = some raw) :
    (chap_init malloc chap D).2.1.response_len = D.digestsize ∧
    (chap_run ((chap_init malloc chap D).2.1) ops).response_len = D.digestsize ∧
    (chap_finish (chap_run ((chap_init malloc chap D).2.1) ops)).response_len = 0 := by
  have h0 := chap_init_some malloc chap D raw hm
  have h1 : (chap_init malloc chap D).2.1.response_len = D.digestsize := by rw [h0]
  exact ⟨h1, by rw [chap_run_response_len ops, h1], rfl⟩

/-- Witness for C7: a mixed run of updates and responds on `sumDigest`. -/
theorem chap_response_len_invariant_witness :
    mallocSeven (sumDigest.ctxsize + sumDigest.digestsize) =
      some (List.replicate 3 7) ∧
    (chap_run ((chap_init mallocSeven chap_challenge.empty sumDigest).2.1)
      [chap_op.upd [1], chap_op.respond, chap_op.upd [2, 3]]).response_len =
      sumDigest.digestsize :=
  ⟨rfl,
   (chap_response_len_invariant mallocSeven chap_challenge.empty sumDigest
      (List.replicate 3 7) [chap_op.upd [1], chap_op.respond, chap_op.upd [2, 3]]
      rfl).2.1⟩

/-- Shared helper: the response value produced by init, a sequence of
updates and a respond depends only on the digest and the fed bytes — not on
the pre-existing instance or the allocator's returned (uninitialized)
memory. -/
lemma response_after_run (malloc : Nat → Option (List Nat))
    (chap : chap_challenge) (D : crypto_algorithm) (raw : List Nat)
    (ss : List (List Nat))
    (hm : malloc (D.ctxsize + D.digestsize) = some raw)
    (hlen : raw.length = D.ctxsize + D.digestsize) :
    (chap_respond (chap_updates ((chap_init malloc chap D).2.1) ss)).response_bytes =
      some ((D.final (D.update D.init ss.flatten)).2) := by
  have h0 := chap_init_some malloc chap D raw hm
  have hd1 : (chap_init malloc chap D).2.1.digest = some D := by rw [h0]
  have ha1 : (chap_init malloc chap D).2.1.alloc =
      some (D.init ++ raw.drop D.ctxsize) := by rw [h0]
  have htlen : (raw.drop D.ctxsize).length = D.digestsize := by
    rw [List.length_drop, hlen]
    omega
  have hl1 : (D.init ++ raw.drop D.ctxsize).length = D.ctxsize + D.digestsize := by
    rw [List.length_append, D.init_len, htlen]
  rw [chap_updates_eq D ss _ _ hd1 ha1 hl1]
  have hle1 : D.ctxsize ≤ (D.init ++ raw.drop D.ctxsize).length := by
    rw [hl1]
    omega
  rw [chap_update_eq _ D _ ss.flatten hd1 ha1 hle1]
  rw [take_append_len _ _ _ D.init_len, drop_append_len _ _ _ D.init_len]
  have hulen : (D.update D.init ss.flatten).length = D.ctxsize := by
    rw [D.update_len, D.init_len]
  have hr1 : (chap_init malloc chap D).2.1.response = some D.ctxsize := by rw [h0]
  have hrl1 : (chap_init malloc chap D).2.1.response_len = D.digestsize := by rw [h0]
  have hl2 : (D.update D.init ss.flatten ++ raw.drop D.ctxsize).length =
      D.ctxsize + D.digestsize := by
    rw [List.length_append, hulen, htlen]
  have hmain := chap_respond_bytes_eq
    { (chap_init malloc chap D).2.1 with
        alloc := some (D.update D.init ss.flatten ++ raw.drop D.ctxsize) }
    D (D.update D.init ss.flatten ++ raw.drop D.ctxsize) hd1 rfl hl2 hr1 hrl1
  rw [take_append_len _ _ _ hulen] at hmain
  exact hmain

/-- C8: two instances initialized with the same digest `D` — possibly
different pre-states and different allocator-supplied memory — and fed
identical sequences of update byte strings followed by `chap_respond`
produce identical response contents. -/
theorem chap_deterministic (D : crypto_algorithm)
    (mallocA mallocB : Nat → Option (List Nat))
    (chapA chapB : chap_challenge) (rawA rawB : List Nat)
    (ss : List (List Nat))
    (hmA : mallocA (D.ctxsize + D.digestsize) = some rawA)
    (hlenA : rawA.length = D.ctxsize + D.digestsize)
    (hmB : mallocB (D.ctxsize + D.digestsize) = some rawB)
    (hlenB : rawB.length = D.ctxsize + D.digestsize) :
    (chap_respond (chap_updates ((chap_init mallocA chapA D).2.1) ss)).response_bytes =
    (chap_respond (chap_updates ((chap_init mallocB chapB D).2.1) ss)).response_bytes := by
  rw [response_after_run mallocA chapA D rawA ss hmA hlenA,
    response_after_run mallocB chapB D rawB ss hmB hlenB]

/-- Witness for C8: two allocators returning different garbage bytes. -/
theorem chap_deterministic_witness :
    mallocSeven (sumDigest.ctxsize + sumDigest.digestsize) =
      some (List.replicate 3 7) ∧
    mallocNine (sumDigest.ctxsize + sumDigest.digestsize) =
      some (List.replicate 3 9) ∧
    (chap_respond (chap_updates
        ((chap_init mallocSeven chap_challenge.empty sumDigest).2.1)
        [[1], [2]])).response_bytes =
    (chap_respond (chap_updates
        ((chap_init mallocNine readyC sumDigest).2.1)
        [[1], [2]])).response_bytes :=
  ⟨rfl, rfl,
   chap_deterministic sumDigest mallocSeven mallocNine chap_challenge.empty
     readyC (List.replicate 3 7) (List.replicate 3 9) [[1], [2]]
     rfl rfl rfl rfl⟩

/-- C9: on an initialized instance, `chap_update` mutates only the
working-state region: the bound digest reference, the response pointer,
`response_len` and the response region's contents are all unchanged, while
the working state becomes the digest update of the old working state. -/
theorem chap_update_frame (c : chap_challenge) (d : crypto_algorithm)
    (a data : List Nat) (hd : c.digest = some d) (ha : c.alloc = some a)
    (hl : a.length = d.ctxsize + d.digestsize)
    (hr : c.response = some d.ctxsize) (hrl : c.response_len = d.digestsize) :
    (chap_update c data).digest = c.digest ∧
    (chap_update c data).response = c.response ∧
    (chap_update c data).response_len = c.response_len ∧
    (chap_update c data).response_bytes = c.response_bytes ∧
    (chap_update c data).working_state = some (d.update (a.take d.ctxsize) data) := by
  have hle : d.ctxsize ≤ a.length := by omega
  have h0 := chap_update_eq c d a data hd ha hle
  have hulen : (d.update (a.take d.ctxsize) data).length = d.ctxsize := by
    rw [d.update_len, List.length_take, hl]
    omega
  refine ⟨by rw [h0], by rw [h0], by rw [h0], ?_, ?_⟩
  · rw [h0]
    simp only [chap_challenge.response_bytes, ha, hr]
    rw [drop_append_len _ _ _ hulen]
  · rw [h0]
    simp only [chap_challenge.working_state, hd]
    rw [take_append_len _ _ _ hulen]

/-- Witness for C9: updating `readyC` with one byte. -/
theorem chap_update_frame_witness :
    readyC.alloc = some [0, 0, 7] ∧
    (chap_update readyC [5]).response = readyC.response ∧
    (chap_update readyC [5]).response_bytes = readyC.response_bytes ∧
    (chap_update readyC [5]).working_state = some [5, 5] :=
  ⟨rfl,
   (chap_update_frame readyC sumDigest [0, 0, 7] [5] rfl rfl rfl rfl rfl).2.1,
   (chap_update_frame readyC sumDigest [0, 0, 7] [5] rfl rfl rfl rfl rfl).2.2.2.1,
   (chap_update_frame readyC sumDigest [0, 0, 7] [5] rfl rfl rfl rfl rfl).2.2.2.2⟩

/-- C10: on an initialized instance, `chap_respond` leaves the instance's
fields themselves unchanged — digest reference, response pointer and
`response_len` are identical, and the allocation is still present with the
same extent (only its contents change) — so the instance remains
initialized and further calls stay available. -/
theorem chap_respond_frame (c : chap_challenge) (d : crypto_algorithm)
    (a : List Nat) (hd : c.digest = some d) (ha : c.alloc = some a)
    (hl : a.length = d.ctxsize + d.digestsize)
    (hr : c.response = some d.ctxsize) (hrl : c.response_len = d.digestsize) :
    (chap_respond c).digest = c.digest ∧
    (chap_respond c).response = c.response ∧
    (chap_respond c).response_len = c.response_len ∧
    (∃ a2, (chap_respond c).alloc = some a2 ∧ a2.length = a.length) ∧
    (chap_respond c).Ready := by
  have h0 := chap_respond_eq c d a hd ha hl hr
  have hfl : (d.final (a.take d.ctxsize)).1.length = d.ctxsize := by
    rw [d.final_ctx_len, List.length_take, hl]
    omega
  have hol := d.final_out_len (a.take d.ctxsize)
  have halen : ((d.final (a.take d.ctxsize)).1 ++ (d.final (a.take d.ctxsize)).2).length =
      d.ctxsize + d.digestsize := by
    rw [List.length_append, hfl, hol]
  refine ⟨by rw [h0], by rw [h0], by rw [h0], ?_, ?_⟩
  · exact ⟨(d.final (a.take d.ctxsize)).1 ++ (d.final (a.take d.ctxsize)).2,
      by rw [h0], by rw [halen, hl]⟩
  · refine ⟨d, (d.final (a.take d.ctxsize)).1 ++ (d.final (a.take d.ctxsize)).2,
      ?_, ?_, halen, ?_, ?_⟩
    · rw [h0]; exact hd
    · rw [h0]
    · rw [h0]; exact hr
    · rw [h0]; exact hrl

/-- Witness for C10: responding on `readyC`. -/
theorem chap_respond_frame_witness :
    readyC.response = some 2 ∧
    (chap_respond readyC).response = readyC.response ∧
    (chap_respond readyC).response_len = readyC.response_len ∧
    (chap_respond readyC).Ready :=
  ⟨rfl,
   (chap_respond_frame readyC sumDigest [0, 0, 7] rfl rfl rfl rfl rfl).2.1,
   (chap_respond_frame readyC sumDigest [0, 0, 7] rfl rfl rfl rfl rfl).2.2.1,
   (chap_respond_frame readyC sumDigest [0, 0, 7] rfl rfl rfl rfl rfl).2.2.2.2⟩

end Chap
